import Mathlib

/-!
Verification of the VIRA-2 knowledge-grounded Q&A assistant.

This file gives a shallow embedding, in Lean 4, of the core control flow of
the repository's answer pipeline (`AIAgentService.generateResponse`), the
review state machine (`KnowledgeBaseReviewService.processReviewResponse`,
`parseQAPairs`, `validateDuplicateWithLLM`), the knowledge-store search
degradation chain (`AzureSearchService.hybridSearch` / `vectorSearch` /
`keywordSearch`) and the daily scheduler
(`DailySummaryScheduler.checkAndSendSummary`).

External effects (LLM oracles, the search provider, the database, the clock)
are modelled as explicit inputs: each embedded operation is a pure function
of the oracle answers it would receive, and returns the effects (status
updates, upserted documents) it would perform, so that properties of the
TypeScript control flow become provable statements about these functions.
JavaScript numbers used for scores/confidences are modelled as rationals;
JavaScript strings are modelled as Lean strings (the inputs exercised here
are ASCII, where `String.length` and JS `.length` agree).
-/

namespace Vira

/-- JS `\s` whitespace class (the characters relevant to this code base). -/
def jsIsWs (c : Char) : Bool :=
  c == ' ' || c == '\t' || c == '\n' || c == '\r' ||
  c == '\x0b' || c == '\x0c'

/-- `needle.isPrefixOf hay` on character lists (used to build JS
`String.prototype.includes`). -/
def chPre : List Char → List Char → Bool
  | [], _ => true
  | _ :: _, [] => false
  | a :: as, b :: bs => a == b && chPre as bs

/-- Substring occurrence on character lists. -/
def chSub : List Char → List Char → Bool
  | needle, [] => needle.isEmpty
  | needle, c :: t => chPre needle (c :: t) || chSub needle t

/-- JS `hay.includes(needle)`. -/
def strContains (hay needle : String) : Bool :=
  chSub needle.toList hay.toList

/-- JS `s.toLowerCase()` (ASCII inputs). -/
def strLower (s : String) : String :=
  String.mk (s.toList.map Char.toLower)

/-- JS `s.toUpperCase()` (ASCII inputs). -/
def strUpper (s : String) : String :=
  String.mk (s.toList.map Char.toUpper)

/-! ## Retrieval & confidence gate: `AIAgentService.generateResponse`

`src/services/aiAgentService.ts`.  The environment fixes one user query and
the answers of the three external calls the method makes:
`ragService.findRelevantChunks(userQuery, 5, 0.032)` (the retrieved chunks),
`openaiService.scoreRelevance(userQuery, chunks)` (the relevance-scoring
oracle) and `openaiService.getCompletion(messages)` (the answer-generation
oracle).  The embedding also records which oracles were actually invoked on
the taken control path. -/

/-- Result shape of `openaiService.scoreRelevance`. -/
structure RelevanceScore where
  confidence : ℚ
  relevantChunks : List String
  reasoning : String

/-- The oracle answers `generateResponse` would observe for one query. -/
structure AgentEnv where
  /-- result of `ragService.findRelevantChunks(userQuery, 5, 0.032)` -/
  retrieved : List String
  /-- result of `openaiService.scoreRelevance(userQuery, relevantKnowledge)` -/
  score : RelevanceScore
  /-- result of `openaiService.getCompletion(messages)` -/
  completion : String

/-- Which oracle calls were made on the taken path. -/
structure AgentTrace where
  calledScoreRelevance : Bool
  calledGetCompletion : Bool
deriving Repr, DecidableEq

/-- The six stock uncertainty phrases of step 7 of `generateResponse`. -/
def uncertaintyPhrases : List String :=
  ["i don" ++ String.singleton (Char.ofNat 39) ++ "t know",
   "i" ++ String.singleton (Char.ofNat 39) ++ "m not sure",
   "i cannot", "unable to", "no information", "not available"]

/-- Step 7 of `generateResponse`: the generated text, lowercased, contains
one of the stock uncertainty phrases. -/
def indicatesUncertainty (response : String) : Bool :=
  uncertaintyPhrases.any (fun p => strContains (strLower response) p)

/-- Step 5 of `generateResponse`: the answer context is the oracle's
relevant-chunk subset joined with blank lines, falling back to the full
retrieved set when that subset is empty. -/
def assembledContext (env : AgentEnv) : String :=
  if 0 < env.score.relevantChunks.length then
    String.intercalate "\n\n" env.score.relevantChunks
  else
    String.intercalate "\n\n" env.retrieved

/-- `AIAgentService.generateResponse`, as a function of the oracle answers.
Returns the reply text together with the trace of oracle calls.  The
system-prompt string itself (built by `createOptimizedSystemPrompt`) only
feeds the completion oracle and never influences the control flow, so the
completion answer is taken directly from the environment. -/
def generateResponse (env : AgentEnv) : String × AgentTrace :=
  -- Step 1/2: zero retrieved chunks short-circuits to the sentinel.
  if env.retrieved.length = 0 then
    ("NO_ANSWER", ⟨false, false⟩)
  else
    -- Step 3/4: relevance scoring and the 0.7 confidence gate.
    if env.score.confidence < 7/10 then
      ("NO_ANSWER", ⟨true, false⟩)
    else
      -- Step 5: `!filteredKnowledge || filteredKnowledge.length < 10`
      -- (the empty string is falsy and has length 0, so the length test
      -- subsumes the truthiness test).
      if (assembledContext env).length < 10 then
        ("NO_ANSWER", ⟨true, false⟩)
      else
        -- Step 6/7: generate, then override on stock uncertainty phrases.
        if indicatesUncertainty env.completion then
          ("NO_ANSWER", ⟨true, true⟩)
        else
          (env.completion, ⟨true, true⟩)

end Vira

namespace Vira

/-- C1: for every environment (so for every query and every confidence value
returned by the relevance-scoring oracle), `generateResponse` returns the
sentinel "NO_ANSWER" whenever the confidence is below 0.7, and a reply other
than the sentinel is possible only when the confidence is at least 0.7. -/
theorem C1_confidence_gate (env : AgentEnv) :
    (env.score.confidence < 7/10 → (generateResponse env).1 = "NO_ANSWER") ∧
    ((generateResponse env).1 ≠ "NO_ANSWER" → 7/10 ≤ env.score.confidence) := by
  unfold generateResponse
  split_ifs with h1 h2 h3 h4 <;>
    constructor <;> intro h <;>
      first
        | rfl
        | exact absurd h h2
        | exact absurd rfl h
        | exact le_of_not_lt h2

/-- Witness for C1 at a concrete environment: confidence 1/2 < 0.7 forces the
sentinel. -/
theorem C1_confidence_gate_witness :
    (generateResponse ⟨["badge reset: go to the front desk"], ⟨1/2, [], "weak"⟩,
      "some answer"⟩).1 = "NO_ANSWER" :=
  (C1_confidence_gate ⟨["badge reset: go to the front desk"], ⟨1/2, [], "weak"⟩,
    "some answer"⟩).1 (by norm_num)

/-- C2: when the knowledge-store search returns zero chunks,
`generateResponse` returns the sentinel without invoking either the
relevance-scoring oracle or the answer-generation oracle. -/
theorem C2_zero_chunks (env : AgentEnv) (h : env.retrieved = []) :
    (generateResponse env).1 = "NO_ANSWER" ∧
    (generateResponse env).2.calledScoreRelevance = false ∧
    (generateResponse env).2.calledGetCompletion = false := by
  unfold generateResponse
  simp [h]

/-- Witness for C2 at a concrete environment with an empty retrieval. -/
theorem C2_zero_chunks_witness :
    (generateResponse ⟨[], ⟨1, ["x"], "r"⟩, "hello"⟩).1 = "NO_ANSWER" ∧
    (generateResponse ⟨[], ⟨1, ["x"], "r"⟩, "hello"⟩).2.calledScoreRelevance = false ∧
    (generateResponse ⟨[], ⟨1, ["x"], "r"⟩, "hello"⟩).2.calledGetCompletion = false :=
  C2_zero_chunks ⟨[], ⟨1, ["x"], "r"⟩, "hello"⟩ rfl

/-- C10: the implicit third gate.  Even with chunks retrieved and confidence
at least 0.7, `generateResponse` returns the sentinel whenever the assembled
answer context is shorter than 10 characters, and the answer-generation
oracle is invoked only when that context has at least 10 characters. -/
theorem C10_min_context_gate (env : AgentEnv) :
    (env.retrieved ≠ [] → 7/10 ≤ env.score.confidence →
      (assembledContext env).length < 10 → (generateResponse env).1 = "NO_ANSWER") ∧
    ((generateResponse env).2.calledGetCompletion = true →
      10 ≤ (assembledContext env).length) := by
  unfold generateResponse
  constructor
  · intro hne hconf hlen
    split_ifs <;> rfl
  · intro hcall
    split_ifs at hcall with h1 h2 h3 h4 <;> exact le_of_not_lt h3

/-- Witness for C10: confidence 1 passes the 0.7 gate, yet a 4-character
assembled context ("tiny") still forces the sentinel. -/
theorem C10_min_context_gate_witness :
    (generateResponse ⟨["a chunk of knowledge"], ⟨1, ["tiny"], "r"⟩, "x"⟩).1
      = "NO_ANSWER" :=
  (C10_min_context_gate ⟨["a chunk of knowledge"], ⟨1, ["tiny"], "r"⟩, "x"⟩).1
    (by decide) (by norm_num) (by decide)

/-- C1 sanity: high confidence may answer. -/
example :
    (generateResponse ⟨["chunk one of knowledge"], ⟨9/10, ["chunk one of knowledge"], "r"⟩,
      "Walk to the front desk."⟩).1 = "Walk to the front desk." := by
  unfold generateResponse
  norm_num
  decide

end Vira

namespace Vira

/-- JS `s.trim()` (whitespace as in `jsIsWs`). -/
def jsTrim (s : String) : String :=
  String.mk (((s.toList.dropWhile jsIsWs).reverse.dropWhile jsIsWs).reverse)

/-! ## Curation & deduplication: `KnowledgeBaseReviewService`

`src/services/knowledgeBaseReviewService.ts`. -/

/-- A search hit as consumed by the duplicate pipeline
(`AzureSearchService.SearchResult`). -/
structure SearchResult where
  content : String
  question : Option String
  answer : Option String
  source : String
  score : ℚ
deriving Repr, DecidableEq

/-- `KnowledgeBaseReviewService.validateDuplicateWithLLM`, as a function of
the duplicate-validation oracle's reply.  `hasOpenai` is the presence of
`this.openaiService`; `firstScore` is `searchResults[0].score` (the only
field of the search results the verdict logic reads — the rest only feeds
the prompt); `llm` is the completion, `none` when the oracle call threw
(the `catch` branch). -/
def validateDuplicateWithLLM (hasOpenai : Bool) (firstScore : ℚ)
    (llm : Option String) : Bool :=
  if !hasOpenai then
    -- no LLM available: score-based decision with the 0.9 threshold
    decide ((9/10 : ℚ) ≤ firstScore)
  else
    match llm with
    | none =>
      -- catch branch: `searchResults[0].score >= 0.9`
      decide ((9/10 : ℚ) ≤ firstScore)
    | some resp =>
      let responseUpper := strUpper (jsTrim resp)
      let isDuplicate := strContains responseUpper "DUPLICATE" &&
        !(strContains responseUpper "UNIQUE")
      if !(strContains responseUpper "DUPLICATE") &&
          !(strContains responseUpper "UNIQUE") then
        true  -- unclear verdict: default to DUPLICATE
      else
        isDuplicate

/-- The per-candidate decision of
`KnowledgeBaseReviewService.filterDuplicatePairs` once the merged search
results for the pair are known: with no match above the floor the pair is
kept; otherwise it is kept exactly when the LLM validation says it is not a
duplicate. -/
def pairKept (uniqueResults : List SearchResult) (hasOpenai : Bool)
    (llm : Option String) : Bool :=
  match uniqueResults with
  | [] => true
  | r :: _ => !(validateDuplicateWithLLM hasOpenai r.score llm)

/-- C6: for a candidate pair with at least one similarity match above the
dedup floor, a duplicate-validation verdict containing neither "DUPLICATE"
nor "UNIQUE" classifies the pair as duplicate and the pair is discarded,
never kept. -/
theorem C6_unparsable_verdict_discards (r : SearchResult)
    (rest : List SearchResult) (resp : String)
    (hd : strContains (strUpper (jsTrim resp)) "DUPLICATE" = false)
    (hu : strContains (strUpper (jsTrim resp)) "UNIQUE" = false) :
    validateDuplicateWithLLM true r.score (some resp) = true ∧
    pairKept (r :: rest) true (some resp) = false := by
  unfold pairKept validateDuplicateWithLLM
  simp [hd, hu]

/-- Witness for C6: the verdict "MAYBE" contains neither keyword, so a pair
whose best match scored 0.8 is classified duplicate and dropped. -/
theorem C6_unparsable_verdict_discards_witness :
    validateDuplicateWithLLM true
      (SearchResult.mk "existing text" (some "q") (some "a") "kb" (4/5)).score
      (some "MAYBE") = true ∧
    pairKept [SearchResult.mk "existing text" (some "q") (some "a") "kb" (4/5)]
      true (some "MAYBE") = false :=
  C6_unparsable_verdict_discards
    (SearchResult.mk "existing text" (some "q") (some "a") "kb" (4/5)) []
    "MAYBE" (by decide) (by decide)

end Vira

namespace Vira

/-! ### The Q:/A: text parser (`parseQAPairs`)

`KnowledgeBaseReviewService.parseQAPairs` dispatches between a single-line
and a multi-line parser.  The regular expressions involved all revolve
around the shape `Q\s*:` / `A\s*:`; they are embedded as character-list
scanners below. -/

/-- Match `X\s*:` (case-insensitively, `q` given in lower case) at the head
of the list; returns the remainder after the colon. -/
def matchLetterColon (q : Char) : List Char → Option (List Char)
  | [] => none
  | c :: rest =>
    if c.toLower == q then
      match rest.dropWhile jsIsWs with
      | ':' :: r => some r
      | _ => none
    else none

/-- The case-sensitive test `/^X\s*:/.test(line)` used for multi-line
dispatch (`X` is the literal upper-case letter). -/
def lineStartsLetterColon (q : Char) (s : String) : Bool :=
  match s.toList with
  | [] => false
  | c :: rest =>
    c == q && (match rest.dropWhile jsIsWs with
      | ':' :: _ => true
      | _ => false)

/-- `line.replace(/^X\s*:\s*/i, "")` (`q` given in lower case). -/
def stripLetterColon (q : Char) (s : String) : String :=
  match s.toList with
  | [] => s
  | c :: rest =>
    if c.toLower == q then
      match rest.dropWhile jsIsWs with
      | ':' :: r => String.mk (r.dropWhile jsIsWs)
      | _ => s
    else s

/-- Leftmost occurrence of `X\s*:` (case-insensitive); returns the
remainder after its colon.  Because a match of this pattern cannot begin
strictly inside another match (its interior holds no letter), scanning for
the first match position agrees with the JS regex engine's leftmost
match. -/
def findLetterColon (q : Char) : List Char → Option (List Char)
  | [] => none
  | c :: rest =>
    match matchLetterColon q (c :: rest) with
    | some r => some r
    | none => findLetterColon q rest

/-- `(line.match(/X\s*:/gi) || []).length`: the number of match positions.
For this pattern no match can begin inside another match, so counting all
start positions equals the non-overlapping global count of the JS engine. -/
def countLetterColonStarts (q : Char) (cs : List Char) : Nat :=
  cs.tails.countP (fun t => (matchLetterColon q t).isSome)

/-- The lookahead `(?=\s+X\s*:)`: at least one whitespace character, then a
`X\s*:` match (which, starting with a letter, must sit right after the
whole whitespace run). -/
def lookaheadWsLetterColon (q : Char) (cs : List Char) : Bool :=
  match cs with
  | [] => false
  | c :: _ => jsIsWs c && (matchLetterColon q (cs.dropWhile jsIsWs)).isSome

/-- The lazy capture `(.*?)(?=\s+X\s*:|$)`: take characters up to the first
position where the lookahead succeeds, or to the end of the input. -/
def captureUntilWsLetterColon (q : Char) : List Char → List Char
  | [] => []
  | c :: rest =>
    if lookaheadWsLetterColon q (c :: rest) then []
    else c :: captureUntilWsLetterColon q rest

/-- `text.split(/(?=Q\s*:)/i)`: cut before every `Q\s*:` start except at
position 0 (JS skips the empty match at the current scan position). -/
def splitQBlocksAux (acc : List Char) : List Char → List (List Char)
  | [] => [acc.reverse]
  | c :: rest =>
    if (matchLetterColon 'q' (c :: rest)).isSome && !acc.isEmpty then
      acc.reverse :: splitQBlocksAux [c] rest
    else
      splitQBlocksAux (c :: acc) rest

/-- `text.split(/(?=Q\s*:)/i)` on strings. -/
def splitQBlocks (s : String) : List String :=
  (splitQBlocksAux [] s.toList).map String.mk

/-- `text.split("\n")`. -/
def splitLinesAux (acc : List Char) : List Char → List String
  | [] => [String.mk acc.reverse]
  | c :: rest =>
    if c == '\n' then String.mk acc.reverse :: splitLinesAux [] rest
    else splitLinesAux (c :: acc) rest

/-- `text.split("\n")` on strings. -/
def splitLines (s : String) : List String :=
  splitLinesAux [] s.toList

/-- The single-line dispatch test `text.match(/Q\s*:.*A\s*:.*Q\s*:/i)` (the
text is newline-free when this is consulted). -/
def singleLineQAQTest (s : String) : Bool :=
  match findLetterColon 'q' s.toList with
  | none => false
  | some r1 =>
    match findLetterColon 'a' r1 with
    | none => false
    | some r2 => (findLetterColon 'q' r2).isSome

/-- One block of `parseSingleLineQAPairs`: extract the question
(`/Q\s*:\s*(.*?)(?=\s+A\s*:|$)/is`) and the answer
(`/A\s*:\s*(.*?)(?=\s+Q\s*:|$)/is`) from a trimmed block; `none` when the
block contributes no pair. -/
def parseSingleLineBlock (block : String) : Option (String × String) :=
  let t := jsTrim block
  if t == "" then none
  else
    match findLetterColon 'q' t.toList with
    | none => none
    | some r1 =>
      let question :=
        jsTrim (String.mk (captureUntilWsLetterColon 'a' (r1.dropWhile jsIsWs)))
      if question == "" then none
      else
        match findLetterColon 'a' t.toList with
        | none => none
        | some r2 =>
          let answer :=
            jsTrim (String.mk (captureUntilWsLetterColon 'q' (r2.dropWhile jsIsWs)))
          if answer == "" then none else some (question, answer)

/-- `KnowledgeBaseReviewService.parseSingleLineQAPairs`. -/
def parseSingleLineQAPairs (text : String) : List (String × String) :=
  (splitQBlocks text).filterMap parseSingleLineBlock

/-- Flush of the multi-line parser's running pair (`currentQuestion`,
`currentAnswer`): emitted only when a question and at least one answer line
were collected. -/
def mlFlush (cq : Option String) (ca : List String) : List (String × String) :=
  match cq, ca with
  | some q, _ :: _ => [(q, jsTrim (String.intercalate "\n" ca))]
  | _, _ => []

/-- Loop of the multi-line branch of `parseQAPairs` over the lines. -/
def mlGo (cq : Option String) (ca : List String) :
    List String → List (String × String)
  | [] => mlFlush cq ca
  | line :: rest =>
    let t := jsTrim line
    if t.length = 0 then mlGo cq ca rest
    else if lineStartsLetterColon 'Q' t then
      mlFlush cq ca ++ mlGo (some (jsTrim (stripLetterColon 'q' t))) [] rest
    else if lineStartsLetterColon 'A' t then
      match cq with
      | some _ => mlGo cq (ca ++ [jsTrim (stripLetterColon 'a' t)]) rest
      | none => mlGo cq ca rest
    else
      match cq, ca with
      | some _, _ :: _ => mlGo cq (ca ++ [t]) rest
      | some q, [] => mlGo (some (q ++ " " ++ t)) [] rest
      | none, _ => mlGo cq ca rest

/-- `KnowledgeBaseReviewService.parseQAPairs`: detect the single-line
format, else parse the multi-line `Q:`/`A:` block format. -/
def parseQAPairs (text : String) : List (String × String) :=
  if (jsTrim text).length = 0 then []
  else
    let lines := splitLines text
    let hasMultipleQOnSameLine :=
      lines.any (fun l => 1 < countLetterColonStarts 'q' l.toList)
    if hasMultipleQOnSameLine ||
        (!(strContains text "\n") && singleLineQAQTest text) then
      parseSingleLineQAPairs text
    else
      mlGo none [] lines

end Vira

namespace Vira

/-- Multi-line format parses as expected. -/
example : parseQAPairs "Q: X\nA: Y" = [("X", "Y")] := by decide

/-- Single-line format parses as expected. -/
example :
    parseQAPairs "Q: first question A: first answer Q: second question A: second answer"
      = [("first question", "first answer"), ("second question", "second answer")] := by
  decide

end Vira

namespace Vira

/-! ### The review state machine: `processReviewResponse` -/

/-- A `KBSummary` row as read back by `databaseService.getKBSummary`. -/
structure KBSummary where
  summaryId : String
  date : String
  summaryText : String
  status : String
deriving Repr, DecidableEq

/-- Review actions of `ParsedKBReviewMessage`. -/
inductive ReviewAction where
  | approved
  | rejected
  | changes_required
deriving Repr, DecidableEq

/-- `ParsedKBReviewMessage` (`app.ts`): `changes` is `none` when the
message supplied no changes text (the TS field is `changes?: string`). -/
structure ParsedKBReviewMessage where
  summaryId : String
  action : ReviewAction
  changes : Option String
deriving Repr, DecidableEq

/-- `KnowledgeDocument` (`azureSearchService.ts`). -/
structure KnowledgeDocument where
  id : String
  content : String
  question : Option String
  answer : Option String
  source : String
  embedding : Option (List ℚ)
  timestamp : Nat
  status : Option String
deriving Repr, DecidableEq

/-- One `databaseService.updateKBSummaryStatus` call. -/
structure StatusUpdate where
  summaryId : String
  status : String
  reviewedBy : String
  changes : Option String
deriving Repr, DecidableEq

/-- The externally visible effects of one `processReviewResponse` call:
the status updates issued (in call order) and the documents upserted into
the knowledge store. -/
structure ReviewEffects where
  statusUpdates : List StatusUpdate
  upserted : List KnowledgeDocument
deriving Repr, DecidableEq

/-- No effects. -/
def noEffects : ReviewEffects := ⟨[], []⟩

/-- Result of one `processReviewResponse` call: either the returned
`{processed, message}` object, or a thrown JS `TypeError`. -/
inductive ReviewOutcome where
  | ok (processed : Bool) (message : String)
  | typeError
deriving Repr, DecidableEq

/-- `reviewerName.toLowerCase().replaceAll(" ", "")`. -/
def normalizeReviewer (s : String) : String :=
  String.mk ((s.toList.map Char.toLower).filter (fun c => !(c == ' ')))

/-- The documents built from the parsed Q&A pairs before
`azureSearchService.upsertDocuments`: ids `summaryId_now_index`, content and
answer set to the pair's answer, provenance the summary id, status
"approved" (`nowMs` stands for `Date.now()`). -/
def mkReviewDocs (sid : String) (nowMs : Nat)
    (pairs : List (String × String)) : List KnowledgeDocument :=
  pairs.enum.map (fun ip =>
    { id := sid ++ "_" ++ toString nowMs ++ "_" ++ toString ip.1
      content := ip.2.2
      question := some ip.2.1
      answer := some ip.2.2
      source := sid
      embedding := none
      timestamp := nowMs
      status := some "approved" })

/-- The success message `✅ Summary approved. N Q&A pairs added to knowledge
base.`. -/
def mkApprovedMessage (n : Nat) : String :=
  "✅ Summary approved. " ++ toString n ++ " Q&A pairs added to knowledge base."

/-- `KnowledgeBaseReviewService.processReviewResponse` as a function of the
config (`kbReviewUsers = CONFIG.KB_REVIEW_USERS`), the service presence
flags (`hasDb`, `hasSearch`), the clock, the summary looked up from the
database, the reviewer and the parsed message.  Mirrors the source order:
not-found check, early return for `rejected` (before any authorization
check), authorization check, then the approved/changes_required block whose
condition `parsed.changes || parsed.changes.trim().length > 10` throws a
`TypeError` when `changes` is `undefined`, and which ends by
unconditionally updating the status to "approved". -/
def processReviewResponse (kbReviewUsers : List String) (hasDb hasSearch : Bool)
    (nowMs : Nat) (dbSummary : Option KBSummary) (reviewerName : String)
    (parsed : ParsedKBReviewMessage) : ReviewOutcome × ReviewEffects :=
  match dbSummary with
  | none => (.ok false "Summary not found", noEffects)
  | some s =>
    if parsed.action = ReviewAction.rejected then
      (.ok true "Summary rejected. No entries added to knowledge base.", noEffects)
    else
      let reviewerNameLower := normalizeReviewer reviewerName
      if !(kbReviewUsers.contains reviewerNameLower) then
        (.ok false "User not authorized to review knowledge base entries", noEffects)
      else
        -- parsed.action is approved or changes_required from here on
        match parsed.changes with
        | none =>
          -- `parsed.changes || parsed.changes.trim().length > 10` evaluates
          -- `undefined.trim()`: TypeError propagates, nothing is written
          (.typeError, noEffects)
        | some ch =>
          let takeChanges := ch != "" || decide (10 < (jsTrim ch).length)
          let summaryText := if takeChanges then ch else s.summaryText
          let upd1 :=
            if takeChanges && hasDb then
              [StatusUpdate.mk s.summaryId "changes_required" reviewerName (some ch)]
            else []
          let qaPairs := parseQAPairs summaryText
          let docs :=
            if hasSearch && !qaPairs.isEmpty then
              mkReviewDocs s.summaryId nowMs qaPairs
            else []
          let upd2 :=
            if hasDb then [StatusUpdate.mk s.summaryId "approved" reviewerName none]
            else []
          (.ok true (mkApprovedMessage docs.length), ⟨upd1 ++ upd2, docs⟩)

end Vira

namespace Vira

/-- C3 counterexample: an unauthorized reviewer sending a `rejected` action
is answered with the success message "Summary rejected. ..." — the early
return for `rejected` sits before the authorization check — so no
authorization failure distinct from "Summary not found" is reported, which
falsifies the claim for the `rejected` action (the state is still
unchanged). -/
theorem C3_rejected_skips_auth_counterexample :
    (["approveduser"].contains (normalizeReviewer "Mallory Hacker") = false) ∧
    processReviewResponse ["approveduser"] true true 3
        (some ⟨"summary_2024-06-01_1", "2024-06-01", "Q: X\nA: Y", "sent"⟩)
        "Mallory Hacker"
        ⟨"summary_2024-06-01_1", ReviewAction.rejected, none⟩
      = (ReviewOutcome.ok true
          "Summary rejected. No entries added to knowledge base.", noEffects) ∧
    "Summary rejected. No entries added to knowledge base."
      ≠ "User not authorized to review knowledge base entries" := by
  decide

/-- C3 (amended): an unauthorized reviewer never changes the summary status
or the knowledge store; for `approved` and `changes_required` the reply is
the authorization failure, which is distinct from the not-found report,
while a `rejected` action returns the success message before the
authorization check is ever reached. -/
theorem C3_unauthorized_leaves_state (users : List String)
    (hasDb hasSearch : Bool) (nowMs : Nat) (s : KBSummary) (reviewer : String)
    (parsed : ParsedKBReviewMessage)
    (hauth : users.contains (normalizeReviewer reviewer) = false) :
    (processReviewResponse users hasDb hasSearch nowMs (some s) reviewer parsed).2
      = noEffects ∧
    (parsed.action ≠ ReviewAction.rejected →
      (processReviewResponse users hasDb hasSearch nowMs (some s) reviewer parsed).1
        = ReviewOutcome.ok false
            "User not authorized to review knowledge base entries") ∧
    (parsed.action = ReviewAction.rejected →
      (processReviewResponse users hasDb hasSearch nowMs (some s) reviewer parsed).1
        = ReviewOutcome.ok true
            "Summary rejected. No entries added to knowledge base.") ∧
    "User not authorized to review knowledge base entries" ≠ "Summary not found" := by
  have hmem : normalizeReviewer reviewer ∉ users := by simpa using hauth
  refine ⟨?_, ?_, ?_, by decide⟩ <;>
    by_cases hA : parsed.action = ReviewAction.rejected <;>
      simp [processReviewResponse, hA, hmem]

/-- Witness for C3 (amended) at a concrete unauthorized reviewer. -/
theorem C3_unauthorized_leaves_state_witness :
    (processReviewResponse ["admin"] true true 0
        (some ⟨"summary_2024-06-01_2", "2024-06-01", "Q: X\nA: Y", "sent"⟩)
        "Bob" ⟨"summary_2024-06-01_2", ReviewAction.approved, none⟩).2 = noEffects ∧
    (ReviewAction.approved ≠ ReviewAction.rejected →
      (processReviewResponse ["admin"] true true 0
          (some ⟨"summary_2024-06-01_2", "2024-06-01", "Q: X\nA: Y", "sent"⟩)
          "Bob" ⟨"summary_2024-06-01_2", ReviewAction.approved, none⟩).1
        = ReviewOutcome.ok false
            "User not authorized to review knowledge base entries") ∧
    (ReviewAction.approved = ReviewAction.rejected →
      (processReviewResponse ["admin"] true true 0
          (some ⟨"summary_2024-06-01_2", "2024-06-01", "Q: X\nA: Y", "sent"⟩)
          "Bob" ⟨"summary_2024-06-01_2", ReviewAction.approved, none⟩).1
        = ReviewOutcome.ok true
            "Summary rejected. No entries added to knowledge base.") ∧
    "User not authorized to review knowledge base entries" ≠ "Summary not found" :=
  C3_unauthorized_leaves_state ["admin"] true true 0
    ⟨"summary_2024-06-01_2", "2024-06-01", "Q: X\nA: Y", "sent"⟩
    "Bob" ⟨"summary_2024-06-01_2", ReviewAction.approved, none⟩ (by decide)

/-- C4 counterexample: for an authorized `changes_required` review with
changes text, the last status update written is "approved" — the handler
unconditionally overwrites the just-written `changes_required` status — so
the final persisted status is not `changes_required` as claimed. -/
theorem C4_final_status_counterexample :
    ((processReviewResponse ["admin"] true true 5
        (some ⟨"summary_2024-06-01_1", "2024-06-01", "Q: Old\nA: Stale", "sent"⟩)
        "Admin"
        ⟨"summary_2024-06-01_1", ReviewAction.changes_required,
          some "Q: New\nA: Fresh"⟩).2.statusUpdates.getLast?
      = some (StatusUpdate.mk "summary_2024-06-01_1" "approved" "Admin" none)) ∧
    "approved" ≠ "changes_required" := by
  decide

/-- C4 (amended): for an authorized `changes_required` review with a
non-empty changes text, the changes text replaces `summaryText`, its parsed
pairs are upserted into the knowledge store immediately, and the status is
set to `changes_required` (with the changes recorded) but then
unconditionally overwritten, so the final persisted status is `approved`. -/
theorem C4_changes_required_upserts_then_marks_approved (users : List String)
    (nowMs : Nat) (s : KBSummary) (reviewer : String) (pid ch : String)
    (hauth : users.contains (normalizeReviewer reviewer) = true)
    (hch : ch ≠ "")
    (hpairs : (parseQAPairs ch).isEmpty = false) :
    (processReviewResponse users true true nowMs (some s) reviewer
        ⟨pid, ReviewAction.changes_required, some ch⟩).2.upserted
      = mkReviewDocs s.summaryId nowMs (parseQAPairs ch) ∧
    (processReviewResponse users true true nowMs (some s) reviewer
        ⟨pid, ReviewAction.changes_required, some ch⟩).2.statusUpdates
      = [StatusUpdate.mk s.summaryId "changes_required" reviewer (some ch),
         StatusUpdate.mk s.summaryId "approved" reviewer none] := by
  have hmem : normalizeReviewer reviewer ∈ users := by simpa using hauth
  have hnil : parseQAPairs ch ≠ [] := by simpa using hpairs
  unfold processReviewResponse
  simp [hmem, hch, hnil]

/-- Witness for C4 (amended) at a concrete authorized review. -/
theorem C4_changes_required_witness :
    (processReviewResponse ["admin"] true true 5
        (some ⟨"summary_2024-06-02_7", "2024-06-02", "Q: A\nA: B", "sent"⟩)
        "Admin"
        ⟨"summary_2024-06-02_7", ReviewAction.changes_required,
          some "Q: New question\nA: New answer"⟩).2.upserted
      = mkReviewDocs "summary_2024-06-02_7" 5
          (parseQAPairs "Q: New question\nA: New answer") ∧
    (processReviewResponse ["admin"] true true 5
        (some ⟨"summary_2024-06-02_7", "2024-06-02", "Q: A\nA: B", "sent"⟩)
        "Admin"
        ⟨"summary_2024-06-02_7", ReviewAction.changes_required,
          some "Q: New question\nA: New answer"⟩).2.statusUpdates
      = [StatusUpdate.mk "summary_2024-06-02_7" "changes_required" "Admin"
           (some "Q: New question\nA: New answer"),
         StatusUpdate.mk "summary_2024-06-02_7" "approved" "Admin" none] :=
  C4_changes_required_upserts_then_marks_approved ["admin"] 5
    ⟨"summary_2024-06-02_7", "2024-06-02", "Q: A\nA: B", "sent"⟩
    "Admin" "summary_2024-06-02_7" "Q: New question\nA: New answer"
    (by decide) (by decide) (by decide)

/-- C5 (code bug): the summary text `Q: X\nA: Y` parses to exactly the pair
("X","Y") — but an authorized approval with no changes text evaluates
`parsed.changes.trim()` on `undefined` (the condition uses `||` where `&&`
was clearly intended), so the call throws a TypeError: nothing is upserted
and no status update is written, instead of the claimed one-document upsert
and `approved` status. -/
theorem C5_approved_without_changes_throws :
    parseQAPairs "Q: X\nA: Y" = [("X", "Y")] ∧
    processReviewResponse ["admin"] true true 7
        (some ⟨"summary_2024-06-03_1", "2024-06-03", "Q: X\nA: Y", "sent"⟩)
        "Admin" ⟨"summary_2024-06-03_1", ReviewAction.approved, none⟩
      = (ReviewOutcome.typeError, noEffects) := by
  decide

end Vira

namespace Vira

/-! ## Knowledge store search: `AzureSearchService`

`src/services/azureSearchService.ts`.  The provider (`searchClient.search`
plus the embedding call that precedes it) is modelled per stage as an
`Option (List SearchResult)`: `none` when that stage's provider interaction
throws, `some raw` with the provider's ranked result list otherwise (the
`top: topK` request option caps `raw` at `topK` entries, carried below as a
hypothesis).  The service is taken as already initialized. -/

structure SearchEnv where
  /-- outcome of the embedding + hybrid `searchClient.search` call -/
  hybridRaw : Option (List SearchResult)
  /-- outcome of the embedding + vector `searchClient.search` call -/
  vectorRaw : Option (List SearchResult)
  /-- outcome of the keyword `searchClient.search` call (scores `|| 0`) -/
  keywordRaw : Option (List SearchResult)

/-- The result loop of `hybridSearch`: keep results with a truthy score at
or above the threshold, and break once `topK` have been collected. -/
def hybridLoop (topK : Nat) (th : ℚ) : List SearchResult → Nat → List SearchResult
  | [], _ => []
  | r :: rest, cnt =>
    if !(r.score == 0) && decide (th ≤ r.score) then
      if topK ≤ cnt + 1 then [r]
      else r :: hybridLoop topK th rest (cnt + 1)
    else hybridLoop topK th rest cnt

/-- `AzureSearchService.keywordSearch`: no score filtering; an empty list on
provider failure. -/
def keywordSearch (env : SearchEnv) : List SearchResult :=
  match env.keywordRaw with
  | some raw => raw
  | none => []

/-- `AzureSearchService.vectorSearch`: threshold-filtered results, falling
back to `keywordSearch` on provider failure. -/
def vectorSearch (env : SearchEnv) (topK : Nat) (th : ℚ) : List SearchResult :=
  match env.vectorRaw with
  | some raw => raw.filter (fun r => !(r.score == 0) && decide (th ≤ r.score))
  | none => keywordSearch env

/-- `AzureSearchService.hybridSearch`: threshold-filtered, `topK`-truncated
results, degrading to `vectorSearch` (and transitively to `keywordSearch`)
on provider failure. -/
def hybridSearch (env : SearchEnv) (topK : Nat) (th : ℚ) : List SearchResult :=
  match env.hybridRaw with
  | some raw => hybridLoop topK th raw 0
  | none => vectorSearch env topK th

/-- The hybrid result loop never returns more results than it was given. -/
theorem hybridLoop_length_le (topK : Nat) (th : ℚ) :
    ∀ (l : List SearchResult) (cnt : Nat),
      (hybridLoop topK th l cnt).length ≤ l.length := by
  intro l
  induction l with
  | nil => intro cnt; simp [hybridLoop]
  | cons r rest ih =>
    intro cnt
    unfold hybridLoop
    split_ifs with h1 h2
    · simp
    · simpa using Nat.succ_le_succ (ih (cnt + 1))
    · exact le_trans (ih cnt) (Nat.le_succ _)

/-- Every result kept by the hybrid loop cleared the threshold. -/
theorem hybridLoop_score (topK : Nat) (th : ℚ) :
    ∀ (l : List SearchResult) (cnt : Nat) (r : SearchResult),
      r ∈ hybridLoop topK th l cnt → th ≤ r.score := by
  intro l
  induction l with
  | nil => intro cnt r h; simp [hybridLoop] at h
  | cons x rest ih =>
    intro cnt r h
    unfold hybridLoop at h
    split_ifs at h with h1 h2
    · simp at h
      subst h
      exact of_decide_eq_true (Bool.and_elim_right h1)
    · rcases List.mem_cons.mp h with h | h
      · subst h
        exact of_decide_eq_true (Bool.and_elim_right h1)
      · exact ih (cnt + 1) r h
    · exact ih cnt r h

/-- C9 counterexample: with the hybrid and vector provider calls failing,
the keyword fallback's results are returned without the `minScore` filter —
here a single result with score 0 is returned although `minScore = 1/2` —
so "every result it returns has score >= minScore" is false for
`hybridSearch` as a whole. -/
theorem C9_keyword_fallback_counterexample :
    hybridSearch
        ⟨none, none, some [SearchResult.mk "stale doc" none none "kb" 0]⟩ 5 (1/2)
      = [SearchResult.mk "stale doc" none none "kb" 0] ∧
    (SearchResult.mk "stale doc" none none "kb" 0).score < 1/2 := by
  constructor
  · rfl
  · norm_num

/-- C9 (amended): `hybridSearch` (total here, hence never throwing) returns
threshold-filtered, `topK`-bounded results while the hybrid provider call
succeeds; on failure it degrades to the threshold-filtered vector search,
then to the keyword fallback, which bounds the count by `topK` but ignores
`minScore`; when every stage fails it returns the empty list rather than an
error. -/
theorem C9_search_degradation (env : SearchEnv) (topK : Nat) (th : ℚ) :
    (∀ raw, env.hybridRaw = some raw → raw.length ≤ topK →
      (hybridSearch env topK th).length ≤ topK ∧
      ∀ r ∈ hybridSearch env topK th, th ≤ r.score) ∧
    (env.hybridRaw = none → ∀ raw, env.vectorRaw = some raw → raw.length ≤ topK →
      (hybridSearch env topK th).length ≤ topK ∧
      ∀ r ∈ hybridSearch env topK th, th ≤ r.score) ∧
    (env.hybridRaw = none → env.vectorRaw = none →
      ∀ raw, env.keywordRaw = some raw → raw.length ≤ topK →
      (hybridSearch env topK th).length ≤ topK) ∧
    (env.hybridRaw = none → env.vectorRaw = none → env.keywordRaw = none →
      hybridSearch env topK th = []) := by
  refine ⟨?_, ?_, ?_, ?_⟩
  · intro raw hh hlen
    unfold hybridSearch
    rw [hh]
    exact ⟨le_trans (hybridLoop_length_le topK th raw 0) hlen,
      fun r hr => hybridLoop_score topK th raw 0 r hr⟩
  · intro hh raw hv hlen
    unfold hybridSearch vectorSearch
    rw [hh, hv]
    refine ⟨le_trans (List.length_filter_le _ _) hlen, fun r hr => ?_⟩
    have := (List.mem_filter.mp hr).2
    exact of_decide_eq_true (Bool.and_elim_right this)
  · intro hh hv raw hk hlen
    unfold hybridSearch vectorSearch keywordSearch
    rw [hh, hv, hk]
    exact hlen
  · intro hh hv hk
    unfold hybridSearch vectorSearch keywordSearch
    rw [hh, hv, hk]

/-- Witness for C9 (amended): a successful hybrid provider call at
`topK = 3`, `minScore = 1/2`. -/
theorem C9_search_degradation_witness :
    (hybridSearch ⟨some [SearchResult.mk "good doc" none none "kb" (9/10)],
        none, none⟩ 3 (1/2)).length ≤ 3 ∧
    ∀ r ∈ hybridSearch ⟨some [SearchResult.mk "good doc" none none "kb" (9/10)],
        none, none⟩ 3 (1/2), (1/2 : ℚ) ≤ r.score :=
  (C9_search_degradation
      ⟨some [SearchResult.mk "good doc" none none "kb" (9/10)], none, none⟩ 3
      (1/2)).1
    [SearchResult.mk "good doc" none none "kb" (9/10)] rfl (by decide)

end Vira

namespace Vira

/-! ## Daily scheduler: `DailySummaryScheduler.checkAndSendSummary`

`src/services/config.ts` (the `DailySummaryScheduler` class).  Each
invocation observes: the clock (`currentDate` from
`now.toISOString().split("T")[0]`, `nowMs` from `now.getTime()`, hours and
minutes), the configured `DAILY_ANALYSIS_TIME`, the database presence, the
result of `getKBSummariesByStatus("sent", 10)` and the JS date parser
`new Date(dateStr).getTime()`.  The in-memory state is the
`lastSummaryDate` field; the dispatch outcome of a firing is recorded as a
`SchedAction`. -/

/-- A summary row as returned by `getKBSummariesByStatus`. -/
structure SchedSummary where
  summaryId : String
  date : String
  summaryText : String
deriving Repr, DecidableEq

/-- The inputs one `checkAndSendSummary` invocation observes. -/
structure SchedulerEnv where
  currentDate : String
  nowMs : Nat
  nowHours : Nat
  nowMinutes : Nat
  cfgHours : Nat
  cfgMinutes : Nat
  hasDb : Bool
  /-- `getKBSummariesByStatus("sent", 10)`, newest first -/
  sentSummaries : List SchedSummary
  /-- `new Date(dateStr).getTime()` -/
  parseDateMs : String → Nat

/-- The 2-minute firing window test of `checkAndSendSummary`. -/
def timeMatch (e : SchedulerEnv) : Bool :=
  e.nowHours == e.cfgHours && decide (e.cfgMinutes ≤ e.nowMinutes) &&
    decide (e.nowMinutes < e.cfgMinutes + 2)

/-- `24 * 60 * 60 * 1000`. -/
def msPerDay : Nat := 86400000

/-- What a firing does about the backlog: consolidate a multi-day span
(`generateConsolidatedSummary(oldestDate, now)`, which re-runs extraction
and dedup and stores a new `sent` summary), consolidate yesterday alone
(`generateConsolidatedSummary(yesterday, yesterday)`, likewise a fresh
generation and a new summary record), re-send an existing pending summary's
text unchanged, or generate a brand-new summary for today. -/
inductive SchedAction where
  | consolidateRange
  | consolidateYesterday
  | resendExisting (summaryId : String) (summaryText : String)
  | generateNew
deriving Repr, DecidableEq

/-- The backlog dispatch inside a firing of `checkAndSendSummary`: filter
the `sent` summaries to those dated before now, take the last of the list
as the oldest pending one, and branch on
`daysDiff = floor((now - oldestDate) / 86400000)`. -/
def backlogAction (e : SchedulerEnv) : SchedAction :=
  if e.hasDb then
    let pendingSummaries :=
      e.sentSummaries.filter (fun s => decide (e.parseDateMs s.date < e.nowMs))
    match pendingSummaries.getLast? with
    | some oldestPending =>
      let daysDiff := (e.nowMs - e.parseDateMs oldestPending.date) / msPerDay
      if 2 ≤ daysDiff then SchedAction.consolidateRange
      else if daysDiff = 1 then SchedAction.consolidateYesterday
      else SchedAction.resendExisting oldestPending.summaryId
        oldestPending.summaryText
    | none => SchedAction.generateNew
  else SchedAction.generateNew

/-- The scheduler's in-memory state (`this.lastSummaryDate`). -/
structure SchedState where
  lastSummaryDate : String
deriving Repr, DecidableEq

/-- One `checkAndSendSummary` invocation: fire only when the time window
matches and nothing fired for the current date yet; firing performs the
backlog dispatch and records the current date in `lastSummaryDate`. -/
def checkAndSendSummary (st : SchedState) (e : SchedulerEnv) :
    SchedState × Option SchedAction :=
  if timeMatch e && !(st.lastSummaryDate == e.currentDate) then
    (⟨e.currentDate⟩, some (backlogAction e))
  else
    (st, none)

/-- A sequence of invocations; returns the final state and how many of them
fired (generated/sent a summary). -/
def runScheduler (st : SchedState) : List SchedulerEnv → SchedState × Nat
  | [] => (st, 0)
  | e :: rest =>
    let step := checkAndSendSummary st e
    let tail := runScheduler step.1 rest
    (tail.1, (if step.2.isSome then 1 else 0) + tail.2)

/-- Once `lastSummaryDate` equals the current date, invocations on that
date are no-ops. -/
theorem runScheduler_no_refire (date : String) :
    ∀ (envs : List SchedulerEnv) (st : SchedState),
      st.lastSummaryDate = date → (∀ e ∈ envs, e.currentDate = date) →
      runScheduler st envs = (st, 0) := by
  intro envs
  induction envs with
  | nil => intro st _ _; rfl
  | cons e rest ih =>
    intro st hst hdates
    have hdate : e.currentDate = date := (hdates e (List.mem_cons_self e rest))
    have hbeq : (st.lastSummaryDate == e.currentDate) = true := by
      rw [hst, hdate]
      exact beq_self_eq_true date
    have hrest := ih st hst (fun x hx => hdates x (List.mem_cons_of_mem e hx))
    unfold runScheduler checkAndSendSummary
    rw [hbeq]
    simp [hrest]

end Vira

namespace Vira

/-- C7: within one calendar date, N invocations of the scheduler's check
function whose time window all matches fire exactly once; every subsequent
invocation on that date is a no-op because the in-memory `lastSummaryDate`
equals the current date. -/
theorem C7_fires_once_per_date (st0 : SchedState) (date : String)
    (envs : List SchedulerEnv) (hne : 0 < envs.length)
    (hdate : ∀ e ∈ envs, e.currentDate = date ∧ timeMatch e = true)
    (hfresh : st0.lastSummaryDate ≠ date) :
    (runScheduler st0 envs).2 = 1 ∧
    (runScheduler st0 envs).1.lastSummaryDate = date := by
  cases envs with
  | nil => simp at hne
  | cons e rest =>
    have hd := hdate e (List.mem_cons_self e rest)
    have hbeq : (st0.lastSummaryDate == e.currentDate) = false := by
      rw [hd.1]
      exact beq_eq_false_iff_ne.mpr hfresh
    have hrest := runScheduler_no_refire date rest ⟨date⟩ rfl
      (fun x hx => (hdate x (List.mem_cons_of_mem e hx)).1)
    unfold runScheduler checkAndSendSummary
    rw [hd.2, hbeq]
    simp [hrest, hd.1]

/-- Witness for C7: three matching invocations on 2024-06-01 at 23:59 (the
default analysis time) starting from a fresh state. -/
theorem C7_fires_once_per_date_witness :
    (runScheduler ⟨""⟩
        [⟨"2024-06-01", 0, 23, 59, 23, 59, false, [], fun _ => 0⟩,
         ⟨"2024-06-01", 0, 23, 59, 23, 59, false, [], fun _ => 0⟩,
         ⟨"2024-06-01", 0, 23, 59, 23, 59, false, [], fun _ => 0⟩]).2 = 1 ∧
    (runScheduler ⟨""⟩
        [⟨"2024-06-01", 0, 23, 59, 23, 59, false, [], fun _ => 0⟩,
         ⟨"2024-06-01", 0, 23, 59, 23, 59, false, [], fun _ => 0⟩,
         ⟨"2024-06-01", 0, 23, 59, 23, 59, false, [], fun _ => 0⟩]).1.lastSummaryDate
      = "2024-06-01" :=
  C7_fires_once_per_date ⟨""⟩ "2024-06-01"
    [⟨"2024-06-01", 0, 23, 59, 23, 59, false, [], fun _ => 0⟩,
     ⟨"2024-06-01", 0, 23, 59, 23, 59, false, [], fun _ => 0⟩,
     ⟨"2024-06-01", 0, 23, 59, 23, 59, false, [], fun _ => 0⟩]
    (by decide) (by decide) (by decide)

/-- C8 counterexample: a backlog whose only `sent` summary dates from
yesterday (daysDiff = 1) is dispatched to
`generateConsolidatedSummary(yesterday, yesterday)` — a fresh extraction +
dedup run that stores a new summary record — and not to re-sending the
existing summary's text, falsifying the claim.  Here the summary date
parses to epoch 0 and `now` is 1 day + 1 hour later. -/
theorem C8_one_day_backlog_counterexample :
    backlogAction ⟨"2024-06-01", 90000000, 23, 59, 23, 59, true,
        [⟨"summary_2024-05-31_1", "2024-05-31", "Q: Old\nA: Text"⟩],
        fun _ => 0⟩
      = SchedAction.consolidateYesterday ∧
    backlogAction ⟨"2024-06-01", 90000000, 23, 59, 23, 59, true,
        [⟨"summary_2024-05-31_1", "2024-05-31", "Q: Old\nA: Text"⟩],
        fun _ => 0⟩
      ≠ SchedAction.resendExisting "summary_2024-05-31_1" "Q: Old\nA: Text" := by
  constructor
  · rfl
  · decide

/-- C8 (amended): with a database and a non-empty pending backlog, a
`daysDiff` of exactly 1 triggers generation of a new consolidated summary
for yesterday (re-running extraction and dedup), while the existing
summary's text is re-sent unchanged only when `daysDiff` is 0, i.e. when
the oldest pending summary is less than one full day old. -/
theorem C8_backlog_dispatch (e : SchedulerEnv) (oldest : SchedSummary)
    (hdb : e.hasDb = true)
    (hold : (e.sentSummaries.filter
        (fun s => decide (e.parseDateMs s.date < e.nowMs))).getLast?
      = some oldest) :
    ((e.nowMs - e.parseDateMs oldest.date) / msPerDay = 1 →
      backlogAction e = SchedAction.consolidateYesterday) ∧
    ((e.nowMs - e.parseDateMs oldest.date) / msPerDay = 0 →
      backlogAction e = SchedAction.resendExisting oldest.summaryId
        oldest.summaryText) := by
  unfold backlogAction
  simp only [hdb, if_true, hold]
  constructor <;> intro h <;> simp [h]

/-- Witness for C8 (amended): a pending summary from the current day
(daysDiff = 0) is re-sent unchanged. -/
theorem C8_backlog_dispatch_witness :
    backlogAction ⟨"2024-06-01", 3600000, 23, 59, 23, 59, true,
        [⟨"summary_2024-06-01_1", "2024-06-01", "Q: Old\nA: Text"⟩],
        fun _ => 0⟩
      = SchedAction.resendExisting "summary_2024-06-01_1" "Q: Old\nA: Text" :=
  (C8_backlog_dispatch
      ⟨"2024-06-01", 3600000, 23, 59, 23, 59, true,
        [⟨"summary_2024-06-01_1", "2024-06-01", "Q: Old\nA: Text"⟩],
        fun _ => 0⟩
      ⟨"summary_2024-06-01_1", "2024-06-01", "Q: Old\nA: Text"⟩
      rfl (by decide)).2 (by decide)

end Vira
